import Mathlib

/-!
Verification of the truck-care persistence layer (`truck_care/db.py` together
with `truck_care/constants.py`), embedded shallowly: the SQLite-backed
`Database` class becomes explicit state passing over a `DBState` record, each
repository method becomes a Lean function that returns its result together
with the (possibly updated) state, and validation errors become `Except.error`
values returning the state unchanged, mirroring the Python code's
raise-before-write / transaction-rollback behaviour.
-/

namespace TruckCare

/-- The constant `TRACTOR_TIRE_POSITIONS` from `constants.py`: the 8 tractor positions. -/
def TRACTOR_TIRE_POSITIONS : List String :=
  ["F1", "F2", "F3", "F4", "F5", "F6", "F7", "F8"]

/-- The constant `TRAILER_TIRE_POSITIONS` from `constants.py`: the 12 trailer positions. -/
def TRAILER_TIRE_POSITIONS : List String :=
  ["R1", "R2", "R3", "R4", "R5", "R6", "R7", "R8", "R9", "R10", "R11", "R12"]

/-- The constant `VEHICLE_TYPE_TRACTOR` from `constants.py`. -/
def VEHICLE_TYPE_TRACTOR : String := "tractor"

/-- The constant `VEHICLE_TYPE_TRAILER` from `constants.py`. -/
def VEHICLE_TYPE_TRAILER : String := "trailer"

/-- Row of the `tractors` table (dataclass `Tractor` in `db.py`). -/
structure Tractor where
  id : Nat
  plate : String
  mileage : Int
  note : String
  created_at : String
deriving Repr, DecidableEq

/-- Row of the `trailers` table (dataclass `Trailer` in `db.py`). -/
structure Trailer where
  id : Nat
  plate : String
  note : String
  created_at : String
deriving Repr, DecidableEq

/-- Row of the `tire_events` table (dataclass `TireEvent` in `db.py`). -/
structure TireEvent where
  id : Nat
  vehicle_type : String
  vehicle_id : Nat
  position : String
  change_date : String
  mileage : Int
  brand : String
  model : String
  note : String
  created_at : String
deriving Repr, DecidableEq

/-- Row of the `maintenance_records` table (dataclass `MaintenanceRecord`). -/
structure MaintenanceRecord where
  id : Nat
  vehicle_type : String
  vehicle_id : Nat
  record_type : String
  service_date : String
  mileage : Int
  note : String
  created_at : String
deriving Repr, DecidableEq

/-- The four tables created by `Database.init_db`, plus the AUTOINCREMENT
counters of their INTEGER PRIMARY KEY columns (SQLite hands out strictly
increasing row ids; `next_..._id` is the id the next insert receives). -/
structure DBState where
  tractors : List Tractor
  trailers : List Trailer
  tire_events : List TireEvent
  maintenance_records : List MaintenanceRecord
  next_tractor_id : Nat
  next_trailer_id : Nat
  next_event_id : Nat
  next_record_id : Nat
deriving Repr, DecidableEq

/-- A freshly initialised database: `init_db` on a new file. -/
def emptyDB : DBState :=
  { tractors := [], trailers := [], tire_events := [], maintenance_records := []
    next_tractor_id := 1, next_trailer_id := 1, next_event_id := 1, next_record_id := 1 }

/-- ASCII whitespace stripped by Python's `str.strip()`. -/
def isPySpace (c : Char) : Bool :=
  c = ' ' ∨ c = '\t' ∨ c = '\n' ∨ c = '\r' ∨ c = '\x0b' ∨ c = '\x0c'

/-- Python's `plate.strip()` / `record_type.strip()`: remove leading and
trailing whitespace. -/
def pyStrip (s : String) : String :=
  ⟨((s.data.dropWhile isPySpace).reverse.dropWhile isPySpace).reverse⟩

/-- Insert into a list sorted by `le` (auxiliary for `sortByLE`). -/
def insertLE {α : Type} (le : α → α → Bool) (a : α) : List α → List α
  | [] => [a]
  | b :: l => if le a b then a :: b :: l else b :: insertLE le a l

/-- Sorting by a comparator: the semantics of SQL `ORDER BY`. -/
def sortByLE {α : Type} (le : α → α → Bool) : List α → List α
  | [] => []
  | a :: l => insertLE le a (sortByLE le l)

/-- Code-point comparison of characters. -/
def charLt (a b : Char) : Bool :=
  decide (a.toNat < b.toNat)

/-- Lexicographic comparison of character lists. -/
def charListLt : List Char → List Char → Bool
  | [], [] => false
  | [], _ :: _ => true
  | _ :: _, [] => false
  | a :: as, b :: bs =>
    if charLt a b then true
    else if charLt b a then false
    else charListLt as bs

/-- SQLite's ordering of two TEXT values: byte-wise comparison of the UTF-8
encodings, which coincides with lexicographic comparison of code points. -/
def strLt (a b : String) : Bool :=
  charListLt a.data b.data

/-- Embeds `_get_valid_positions` in `db.py`: the position set of a vehicle class,
`ValueError` for any other class string. -/
def get_valid_positions (vehicle_type : String) : Except String (List String) :=
  if vehicle_type = VEHICLE_TYPE_TRACTOR then .ok TRACTOR_TIRE_POSITIONS
  else if vehicle_type = VEHICLE_TYPE_TRAILER then .ok TRAILER_TIRE_POSITIONS
  else .error "未知车辆类型"

/-- Number of days of month `m` in year `y` (Gregorian), as used by Python's
`datetime.date` validation. -/
def daysInMonth (y m : Nat) : Nat :=
  if m = 2 then
    if (y % 4 = 0 ∧ y % 100 ≠ 0) ∨ y % 400 = 0 then 29 else 28
  else if m = 4 ∨ m = 6 ∨ m = 9 ∨ m = 11 then 30
  else 31

/-- Validity check for a `YYYY-MM-DD` string, as performed by
`date.fromisoformat` inside `_to_iso` in `db.py`. -/
def isValidISODate (s : String) : Bool :=
  match s.toList with
  | [y1, y2, y3, y4, c1, m1, m2, c2, d1, d2] =>
    y1.isDigit && y2.isDigit && y3.isDigit && y4.isDigit &&
    c1 = '-' && c2 = '-' &&
    m1.isDigit && m2.isDigit && d1.isDigit && d2.isDigit &&
    (let y := (y1.toNat - 48) * 1000 + (y2.toNat - 48) * 100 + (y3.toNat - 48) * 10 + (y4.toNat - 48)
     let m := (m1.toNat - 48) * 10 + (m2.toNat - 48)
     let d := (d1.toNat - 48) * 10 + (d2.toNat - 48)
     decide (1 ≤ m ∧ m ≤ 12 ∧ 1 ≤ d ∧ d ≤ daysInMonth y m))
  | _ => false

/-- Embeds `_to_iso` in `db.py`, restricted to string input: `date.fromisoformat`
either accepts the string (returned unchanged) or raises `ValueError`. -/
def to_iso (d : String) : Except String String :=
  if isValidISODate d then .ok d else .error "Invalid isoformat string"

/-- Embeds `Database.list_tractors`: all tractor rows, `ORDER BY plate`. -/
def list_tractors (st : DBState) : List Tractor :=
  sortByLE (fun a b => !strLt b.plate a.plate) st.tractors

/-- Embeds `Database.get_tractor`: the tractor row with the given id, if any. -/
def get_tractor (st : DBState) (tractor_id : Nat) : Option Tractor :=
  st.tractors.find? (fun t => decide (t.id = tractor_id))

/-- Embeds `Database.create_tractor`: trims the plate, rejects an empty plate and a
negative mileage, then inserts; the `UNIQUE` constraint on `tractors.plate`
rejects a duplicate plate (transaction rolled back, state unchanged). `now`
stands for the `datetime('now')` default of `created_at`. -/
def create_tractor (st : DBState) (plate : String) (mileage : Int)
    (note : String) (now : String) : Except String Nat × DBState :=
  let plate := pyStrip plate
  if plate = "" then (.error "车牌号不能为空", st)
  else if mileage < 0 then (.error "里程数不能为负数", st)
  else if st.tractors.any (fun t => decide (t.plate = plate)) then
    (.error "UNIQUE constraint failed: tractors.plate", st)
  else
    (.ok st.next_tractor_id,
     { st with
       tractors := st.tractors ++
         [{ id := st.next_tractor_id, plate := plate, mileage := mileage
            note := note, created_at := now }]
       next_tractor_id := st.next_tractor_id + 1 })

/-- Embeds `Database.update_tractor`: trims the plate, rejects an empty plate and a
negative mileage, then `UPDATE ... WHERE id = ?` (a no-op when no row has the
id); the `UNIQUE` constraint rejects the update when some other row already
holds the new plate and the target row exists. -/
def update_tractor (st : DBState) (tractor_id : Nat) (plate : String)
    (mileage : Int) (note : String) : Except String Unit × DBState :=
  let plate := pyStrip plate
  if plate = "" then (.error "车牌号不能为空", st)
  else if mileage < 0 then (.error "里程数不能为负数", st)
  else if st.tractors.any (fun t => decide (t.id = tractor_id)) ∧
          st.tractors.any (fun t => decide (t.plate = plate ∧ t.id ≠ tractor_id)) then
    (.error "UNIQUE constraint failed: tractors.plate", st)
  else
    (.ok (),
     { st with
       tractors := st.tractors.map (fun t =>
         if t.id = tractor_id then
           { t with plate := plate, mileage := mileage, note := note }
         else t) })

/-- Embeds `Database.delete_tractor`: one transaction deleting the tire events and
maintenance records referencing the tractor, then the tractor row itself. -/
def delete_tractor (st : DBState) (tractor_id : Nat) : DBState :=
  { st with
    tire_events := st.tire_events.filter (fun e =>
      !decide (e.vehicle_type = VEHICLE_TYPE_TRACTOR ∧ e.vehicle_id = tractor_id))
    maintenance_records := st.maintenance_records.filter (fun r =>
      !decide (r.vehicle_type = VEHICLE_TYPE_TRACTOR ∧ r.vehicle_id = tractor_id))
    tractors := st.tractors.filter (fun t => !decide (t.id = tractor_id)) }

/-- Embeds `Database.list_trailers`: all trailer rows, `ORDER BY plate`. -/
def list_trailers (st : DBState) : List Trailer :=
  sortByLE (fun a b => !strLt b.plate a.plate) st.trailers

/-- Embeds `Database.get_trailer`: the trailer row with the given id, if any. -/
def get_trailer (st : DBState) (trailer_id : Nat) : Option Trailer :=
  st.trailers.find? (fun t => decide (t.id = trailer_id))

/-- Embeds `Database.create_trailer`: trims the plate, rejects an empty plate, then
inserts; the `UNIQUE` constraint on `trailers.plate` rejects a duplicate. -/
def create_trailer (st : DBState) (plate : String) (note : String)
    (now : String) : Except String Nat × DBState :=
  let plate := pyStrip plate
  if plate = "" then (.error "车牌号不能为空", st)
  else if st.trailers.any (fun t => decide (t.plate = plate)) then
    (.error "UNIQUE constraint failed: trailers.plate", st)
  else
    (.ok st.next_trailer_id,
     { st with
       trailers := st.trailers ++
         [{ id := st.next_trailer_id, plate := plate, note := note, created_at := now }]
       next_trailer_id := st.next_trailer_id + 1 })

/-- Embeds `Database.update_trailer`: trims the plate, rejects an empty plate, then
`UPDATE ... WHERE id = ?` (a no-op when no row has the id), subject to the
`UNIQUE` plate constraint as for tractors. -/
def update_trailer (st : DBState) (trailer_id : Nat) (plate : String)
    (note : String) : Except String Unit × DBState :=
  let plate := pyStrip plate
  if plate = "" then (.error "车牌号不能为空", st)
  else if st.trailers.any (fun t => decide (t.id = trailer_id)) ∧
          st.trailers.any (fun t => decide (t.plate = plate ∧ t.id ≠ trailer_id)) then
    (.error "UNIQUE constraint failed: trailers.plate", st)
  else
    (.ok (),
     { st with
       trailers := st.trailers.map (fun t =>
         if t.id = trailer_id then { t with plate := plate, note := note } else t) })

/-- Embeds `Database.delete_trailer`: one transaction deleting the tire events and
maintenance records referencing the trailer, then the trailer row itself. -/
def delete_trailer (st : DBState) (trailer_id : Nat) : DBState :=
  { st with
    tire_events := st.tire_events.filter (fun e =>
      !decide (e.vehicle_type = VEHICLE_TYPE_TRAILER ∧ e.vehicle_id = trailer_id))
    maintenance_records := st.maintenance_records.filter (fun r =>
      !decide (r.vehicle_type = VEHICLE_TYPE_TRAILER ∧ r.vehicle_id = trailer_id))
    trailers := st.trailers.filter (fun t => !decide (t.id = trailer_id)) }

/-- Comparator embedding `ORDER BY change_date DESC, id DESC` for tire
events: `a` may come no later than `b` in the output. -/
def tireEventDescLE (a b : TireEvent) : Bool :=
  strLt b.change_date a.change_date ||
    (decide (b.change_date = a.change_date) && decide (b.id ≤ a.id))

/-- Embeds `Database.list_tire_events`: validates the vehicle class (and the optional
position filter against that class's set), then returns the matching rows
ordered by `change_date DESC, id DESC`. -/
def list_tire_events (st : DBState) (vehicle_type : String) (vehicle_id : Nat)
    (position : Option String) : Except String (List TireEvent) :=
  match get_valid_positions vehicle_type with
  | .error m => .error m
  | .ok valid =>
    match position with
    | some p =>
      if p ∈ valid then
        .ok (sortByLE tireEventDescLE (st.tire_events.filter (fun e =>
            decide (e.vehicle_type = vehicle_type ∧ e.vehicle_id = vehicle_id ∧
                    e.position = p))))
      else .error "轮胎位置不合法"
    | none =>
      .ok (sortByLE tireEventDescLE (st.tire_events.filter (fun e =>
          decide (e.vehicle_type = vehicle_type ∧ e.vehicle_id = vehicle_id))))

/-- Embeds `Database.create_tire_event`: validates the class, the position against
the class's set, non-negative mileage and the ISO date, then inserts. -/
def create_tire_event (st : DBState) (vehicle_type : String) (vehicle_id : Nat)
    (position : String) (change_date : String) (mileage : Int)
    (brand model note now : String) : Except String Nat × DBState :=
  match get_valid_positions vehicle_type with
  | .error m => (.error m, st)
  | .ok valid =>
    if position ∉ valid then (.error "轮胎位置不合法", st)
    else if mileage < 0 then (.error "里程数不能为负数", st)
    else match to_iso change_date with
    | .error m => (.error m, st)
    | .ok change_date_iso =>
      (.ok st.next_event_id,
       { st with
         tire_events := st.tire_events ++
           [{ id := st.next_event_id, vehicle_type := vehicle_type
              vehicle_id := vehicle_id, position := position
              change_date := change_date_iso, mileage := mileage
              brand := brand, model := model, note := note, created_at := now }]
         next_event_id := st.next_event_id + 1 })

/-- Embeds `Database.update_tire_event`: looks up the stored event to learn its
`vehicle_type` (raising `记录不存在` when the id is absent), validates the new
position against that stored class's set, the mileage and the date, then
updates the row. -/
def update_tire_event (st : DBState) (event_id : Nat) (position : String)
    (change_date : String) (mileage : Int)
    (brand model note : String) : Except String Unit × DBState :=
  match st.tire_events.find? (fun e => decide (e.id = event_id)) with
  | none => (.error "记录不存在", st)
  | some e =>
    match get_valid_positions e.vehicle_type with
    | .error m => (.error m, st)
    | .ok valid =>
      if position ∉ valid then (.error "轮胎位置不合法", st)
      else if mileage < 0 then (.error "里程数不能为负数", st)
      else match to_iso change_date with
      | .error m => (.error m, st)
      | .ok change_date_iso =>
        (.ok (),
         { st with
           tire_events := st.tire_events.map (fun x =>
             if x.id = event_id then
               { x with position := position, change_date := change_date_iso
                        mileage := mileage, brand := brand, model := model
                        note := note }
             else x) })

/-- Embeds `Database.delete_tire_event`: `DELETE FROM tire_events WHERE id = ?`. -/
def delete_tire_event (st : DBState) (event_id : Nat) : DBState :=
  { st with tire_events := st.tire_events.filter (fun e => !decide (e.id = event_id)) }

/-- The tire events of one (vehicle class, vehicle id, position) group: the
rows the correlated subquery of `Database.current_tires` ranges over. -/
def eventsFor (st : DBState) (vehicle_type : String) (vehicle_id : Nat)
    (position : String) : List TireEvent :=
  st.tire_events.filter (fun e =>
    decide (e.vehicle_type = vehicle_type ∧ e.vehicle_id = vehicle_id ∧
            e.position = position))

/-- Strict comparison on the sort key `(change_date, id)` used by
`ORDER BY change_date DESC, id DESC` in `current_tires`. -/
def eventKeyLt (a b : TireEvent) : Bool :=
  strLt a.change_date b.change_date ||
    (decide (a.change_date = b.change_date) && decide (a.id < b.id))

/-- One step of selecting the `LIMIT 1` row of the subquery: keep the stored
candidate unless the next row has a strictly larger `(change_date, id)` key. -/
def pickLatest : Option TireEvent → TireEvent → Option TireEvent
  | none, e => some e
  | some c, e => if eventKeyLt c e then some e else some c

/-- The row the correlated subquery of `current_tires` selects from a group:
the event maximal in `(change_date DESC, id DESC)` order, `none` for an empty
group. -/
def latestEvent (l : List TireEvent) : Option TireEvent :=
  l.foldl pickLatest none

/-- Embeds `Database.current_tires`: validates the vehicle class, then maps every
position of that class's fixed set to the latest event recorded there
(`none` when the position has no history). -/
def current_tires (st : DBState) (vehicle_type : String) (vehicle_id : Nat) :
    Except String (List (String × Option TireEvent)) :=
  match get_valid_positions vehicle_type with
  | .error m => .error m
  | .ok valid =>
    .ok (valid.map (fun p => (p, latestEvent (eventsFor st vehicle_type vehicle_id p))))

/-- Comparator embedding `ORDER BY service_date DESC, id DESC` for
maintenance records. -/
def maintDescLE (a b : MaintenanceRecord) : Bool :=
  strLt b.service_date a.service_date ||
    (decide (b.service_date = a.service_date) && decide (b.id ≤ a.id))

/-- Embeds `Database.list_maintenance_records`: the records of one vehicle ordered by
`service_date DESC, id DESC`. -/
def list_maintenance_records (st : DBState) (vehicle_type : String)
    (vehicle_id : Nat) : List MaintenanceRecord :=
  sortByLE maintDescLE (st.maintenance_records.filter (fun r =>
    decide (r.vehicle_type = vehicle_type ∧ r.vehicle_id = vehicle_id)))

/-- Embeds `Database.create_maintenance_record`: trims the record type, rejects an
empty type and a negative mileage, validates the ISO date, then inserts. -/
def create_maintenance_record (st : DBState) (vehicle_type : String)
    (vehicle_id : Nat) (record_type : String) (service_date : String)
    (mileage : Int) (note : String) (now : String) : Except String Nat × DBState :=
  let record_type := pyStrip record_type
  if record_type = "" then (.error "维护类型不能为空", st)
  else if mileage < 0 then (.error "里程数不能为负数", st)
  else match to_iso service_date with
  | .error m => (.error m, st)
  | .ok service_date_iso =>
    (.ok st.next_record_id,
     { st with
       maintenance_records := st.maintenance_records ++
         [{ id := st.next_record_id, vehicle_type := vehicle_type
            vehicle_id := vehicle_id, record_type := record_type
            service_date := service_date_iso, mileage := mileage
            note := note, created_at := now }]
       next_record_id := st.next_record_id + 1 })

/-- Embeds `Database.update_maintenance_record`: same validation as creation, then
`UPDATE ... WHERE id = ?` (a no-op when no row has the id). -/
def update_maintenance_record (st : DBState) (record_id : Nat)
    (record_type : String) (service_date : String) (mileage : Int)
    (note : String) : Except String Unit × DBState :=
  let record_type := pyStrip record_type
  if record_type = "" then (.error "维护类型不能为空", st)
  else if mileage < 0 then (.error "里程数不能为负数", st)
  else match to_iso service_date with
  | .error m => (.error m, st)
  | .ok service_date_iso =>
    (.ok (),
     { st with
       maintenance_records := st.maintenance_records.map (fun r =>
         if r.id = record_id then
           { r with record_type := record_type, service_date := service_date_iso
                    mileage := mileage, note := note }
         else r) })

/-- Embeds `Database.delete_maintenance_record`: delete by id. -/
def delete_maintenance_record (st : DBState) (record_id : Nat) : DBState :=
  { st with
    maintenance_records :=
      st.maintenance_records.filter (fun r => !decide (r.id = record_id)) }

instance {ε α : Type} [DecidableEq ε] [DecidableEq α] : DecidableEq (Except ε α) := fun a b =>
  match a, b with
  | .error x, .error y => if h : x = y then .isTrue (by simp [h]) else .isFalse (by simp [h])
  | .error _, .ok _ => .isFalse (by simp)
  | .ok _, .error _ => .isFalse (by simp)
  | .ok x, .ok y => if h : x = y then .isTrue (by simp [h]) else .isFalse (by simp [h])

/-- Whether an `Except` result is an error (a raised Python exception). -/
def isErr {α : Type} : Except String α → Bool
  | .error _ => true
  | .ok _ => false

/-! ### Concrete fixtures used to instantiate the theorems -/

/-- A tire event of tractor 1 at F1, internal id 2, date 2025-05-01. -/
def evK2 : TireEvent :=
  { id := 2, vehicle_type := "tractor", vehicle_id := 1, position := "F1"
    change_date := "2025-05-01", mileage := 200, brand := "B2", model := "M2"
    note := "", created_at := "t2" }

/-- A tire event of tractor 1 at F1, internal id 1, same date 2025-05-01. -/
def evK1 : TireEvent :=
  { id := 1, vehicle_type := "tractor", vehicle_id := 1, position := "F1"
    change_date := "2025-05-01", mileage := 100, brand := "B1", model := "M1"
    note := "", created_at := "t1" }

/-- A store whose event table holds the id-2 event before the id-1 event,
both with identical dates: the insertion order is the reverse of the id
order. -/
def stTie : DBState :=
  { emptyDB with tire_events := [evK2, evK1], next_event_id := 3 }

/-- The resolver output expected for `stTie`. -/
def mTie : List (String × Option TireEvent) :=
  [("F1", some evK2), ("F2", none), ("F3", none), ("F4", none), ("F5", none),
   ("F6", none), ("F7", none), ("F8", none)]

/-- The resolver output for a tractor with no events at all. -/
def mEmpty : List (String × Option TireEvent) :=
  [("F1", none), ("F2", none), ("F3", none), ("F4", none), ("F5", none),
   ("F6", none), ("F7", none), ("F8", none)]

/-- A store with one tractor and one trailer, each with one tire event and
one maintenance record, plus an unrelated second tractor. -/
def stFleet : DBState :=
  { tractors := [{ id := 1, plate := "T-1", mileage := 100, note := "", created_at := "t" },
                 { id := 2, plate := "T-2", mileage := 50, note := "", created_at := "t" }]
    trailers := [{ id := 1, plate := "R-1", note := "", created_at := "t" }]
    tire_events := [evK1,
      { id := 3, vehicle_type := "trailer", vehicle_id := 1, position := "R4"
        change_date := "2025-03-01", mileage := 0, brand := "", model := ""
        note := "", created_at := "t" }]
    maintenance_records := [
      { id := 1, vehicle_type := "tractor", vehicle_id := 1, record_type := "保养"
        service_date := "2025-02-01", mileage := 120, note := "", created_at := "t" },
      { id := 2, vehicle_type := "trailer", vehicle_id := 1, record_type := "保养"
        service_date := "2025-02-02", mileage := 0, note := "", created_at := "t" }]
    next_tractor_id := 3, next_trailer_id := 2, next_event_id := 4, next_record_id := 3 }

/-- The store after creating the tractor plate " AB-12 " on the empty store. -/
def stDup : DBState :=
  { emptyDB with
    tractors := [{ id := 1, plate := "AB-12", mileage := 7, note := "", created_at := "t" }]
    next_tractor_id := 2 }

/-- The store after creating the trailer plate " AB-12 " on the empty store. -/
def stDupR : DBState :=
  { emptyDB with
    trailers := [{ id := 1, plate := "AB-12", note := "", created_at := "t" }]
    next_trailer_id := 2 }

/-- A store with one tractor (plate A) and one trailer (plate B). -/
def stAB : DBState :=
  { tractors := [{ id := 1, plate := "A", mileage := 0, note := "", created_at := "t" }]
    trailers := [{ id := 1, plate := "B", note := "", created_at := "t" }]
    tire_events := [], maintenance_records := []
    next_tractor_id := 2, next_trailer_id := 2, next_event_id := 1, next_record_id := 1 }

/-- The store `stAB` after creating a tractor with plate input " C-9 ". -/
def stABcreateT : DBState :=
  { stAB with
    tractors := stAB.tractors ++
      [{ id := 2, plate := "C-9", mileage := 3, note := "", created_at := "t" }]
    next_tractor_id := 3 }

/-- The store `stAB` after updating tractor 1 to plate input " C-9 ". -/
def stABupdateT : DBState :=
  { stAB with
    tractors := [{ id := 1, plate := "C-9", mileage := 3, note := "", created_at := "t" }] }

/-- The store `stAB` after creating a trailer with plate input " C-9 ". -/
def stABcreateR : DBState :=
  { stAB with
    trailers := stAB.trailers ++
      [{ id := 2, plate := "C-9", note := "", created_at := "t" }]
    next_trailer_id := 3 }

/-- The store `stAB` after updating trailer 1 to plate input " C-9 ". -/
def stABupdateR : DBState :=
  { stAB with
    trailers := [{ id := 1, plate := "C-9", note := "", created_at := "t" }] }

/-! ### Ordering facts about the embedded TEXT comparison -/

theorem charLt_irrefl (a : Char) : charLt a a = false := by
  simp [charLt]

theorem charLt_trans {a b c : Char} (h1 : charLt a b = true) (h2 : charLt b c = true) :
    charLt a c = true := by
  simp only [charLt, decide_eq_true_iff] at h1 h2 ⊢
  omega

theorem charLt_connex {a b : Char} (h1 : charLt a b = false) (h2 : charLt b a = false) :
    a = b := by
  simp only [charLt, decide_eq_false_iff_not, Nat.not_lt] at h1 h2
  exact Char.eq_of_val_eq (UInt32.ext (Nat.le_antisymm h2 h1))

theorem charListLt_irrefl : ∀ l : List Char, charListLt l l = false
  | [] => rfl
  | a :: l => by
    simp only [charListLt, charLt_irrefl, if_false, Bool.false_eq_true]
    exact charListLt_irrefl l

theorem charListLt_trans : ∀ {l1 l2 l3 : List Char}, charListLt l1 l2 = true →
    charListLt l2 l3 = true → charListLt l1 l3 = true
  | [], _ :: _, _ :: _, _, _ => rfl
  | a :: l1, b :: l2, c :: l3, h1, h2 => by
    simp only [charListLt] at h1 h2 ⊢
    cases hab : charLt a b with
    | true =>
      cases hbc : charLt b c with
      | true => simp [charLt_trans hab hbc]
      | false =>
        cases hcb : charLt c b with
        | true => simp [hbc, hcb] at h2
        | false =>
          have hEq : b = c := charLt_connex hbc hcb
          subst hEq
          simp [hab]
    | false =>
      cases hba : charLt b a with
      | true => simp [hab, hba] at h1
      | false =>
        have hEq : a = b := charLt_connex hab hba
        subst hEq
        simp only [charLt_irrefl, Bool.false_eq_true, if_false] at h1
        cases hac : charLt a c with
        | true => simp
        | false =>
          cases hca : charLt c a with
          | true => simp [hac, hca] at h2
          | false =>
            simp only [hac, hca, Bool.false_eq_true, if_false] at h2 ⊢
            exact charListLt_trans h1 h2

theorem charListLt_connex : ∀ {l1 l2 : List Char}, charListLt l1 l2 = false →
    charListLt l2 l1 = false → l1 = l2
  | [], [], _, _ => rfl
  | [], _ :: _, h1, _ => by simp [charListLt] at h1
  | _ :: _, [], _, h2 => by simp [charListLt] at h2
  | a :: l1, b :: l2, h1, h2 => by
    simp only [charListLt] at h1 h2
    cases hab : charLt a b with
    | true => simp [hab] at h1
    | false =>
      cases hba : charLt b a with
      | true => simp [hab, hba] at h2
      | false =>
        have hEq : a = b := charLt_connex hab hba
        subst hEq
        simp only [hab, charLt_irrefl, Bool.false_eq_true, if_false] at h1 h2
        rw [charListLt_connex h1 h2]

theorem strLt_irrefl (s : String) : strLt s s = false :=
  charListLt_irrefl s.data

theorem strLt_trans {a b c : String} (h1 : strLt a b = true) (h2 : strLt b c = true) :
    strLt a c = true :=
  charListLt_trans h1 h2

theorem strLt_connex {a b : String} (h1 : strLt a b = false) (h2 : strLt b a = false) :
    a = b := by
  cases a with
  | mk da =>
    cases b with
    | mk db =>
      have : da = db := charListLt_connex h1 h2
      rw [this]

/-! ### The `(change_date, id)` sort key of `current_tires` -/

theorem eventKeyLt_irrefl (e : TireEvent) : eventKeyLt e e = false := by
  simp [eventKeyLt, strLt_irrefl]

theorem eventKeyLt_trans {a b c : TireEvent} (h1 : eventKeyLt a b = true)
    (h2 : eventKeyLt b c = true) : eventKeyLt a c = true := by
  simp only [eventKeyLt, Bool.or_eq_true, Bool.and_eq_true, decide_eq_true_iff] at h1 h2 ⊢
  rcases h1 with h1 | ⟨h1e, h1i⟩
  · rcases h2 with h2 | ⟨h2e, h2i⟩
    · exact Or.inl (strLt_trans h1 h2)
    · exact Or.inl (h2e ▸ h1)
  · rcases h2 with h2 | ⟨h2e, h2i⟩
    · exact Or.inl (h1e ▸ h2)
    · exact Or.inr ⟨h1e.trans h2e, Nat.lt_trans h1i h2i⟩

theorem eventKeyLt_of_lt_of_not_lt {d a c : TireEvent} (h1 : eventKeyLt d a = true)
    (h2 : eventKeyLt c a = false) : eventKeyLt d c = true := by
  have h2l : strLt c.change_date a.change_date = false := by
    cases h : strLt c.change_date a.change_date with
    | false => rfl
    | true => simp [eventKeyLt, h] at h2
  simp only [eventKeyLt, Bool.or_eq_true, Bool.and_eq_true, decide_eq_true_iff] at h1 ⊢
  cases hdc : strLt d.change_date c.change_date with
  | true => exact Or.inl rfl
  | false =>
  cases hcd : strLt c.change_date d.change_date with
  | true =>
    rcases h1 with h1 | ⟨h1e, _⟩
    · exact absurd (strLt_trans hcd h1) (by simp [h2l])
    · rw [h1e] at hcd
      exact absurd hcd (by simp [h2l])
  | false =>
    have hEq : c.change_date = d.change_date := strLt_connex hcd hdc
    rcases h1 with h1 | ⟨h1e, h1i⟩
    · rw [← hEq] at h1
      exact absurd h1 (by simp [h2l])
    · have hca : c.change_date = a.change_date := hEq.trans h1e
      have h2i : a.id ≤ c.id := by
        by_cases hi : c.id < a.id
        · exfalso
          have hct : eventKeyLt c a = true := by
            simp only [eventKeyLt, Bool.or_eq_true, Bool.and_eq_true, decide_eq_true_iff]
            exact Or.inr ⟨hca, hi⟩
          rw [hct] at h2
          simp at h2
        · exact Nat.le_of_not_lt hi
      exact Or.inr ⟨hEq.symm, Nat.lt_of_lt_of_le h1i h2i⟩

/-- Folding `pickLatest` from a candidate yields an element that dominates the
candidate and everything scanned, and is one of them. -/
theorem foldl_pickLatest (l : List TireEvent) : ∀ c : TireEvent,
    ∃ d, List.foldl pickLatest (some c) l = some d ∧ (d = c ∨ d ∈ l) ∧
      eventKeyLt d c = false ∧ ∀ x ∈ l, eventKeyLt d x = false := by
  induction l with
  | nil => exact fun c => ⟨c, rfl, Or.inl rfl, eventKeyLt_irrefl c, by simp⟩
  | cons a l ih =>
    intro c
    simp only [List.foldl_cons]
    cases hca : eventKeyLt c a with
    | true =>
      obtain ⟨d, hfold, hmem, hdc, hall⟩ := ih a
      refine ⟨d, by simpa [pickLatest, hca] using hfold, ?_, ?_, ?_⟩
      · rcases hmem with h | h
        · exact Or.inr (by simp [h])
        · exact Or.inr (List.mem_cons_of_mem _ h)
      · cases h : eventKeyLt d c with
        | false => rfl
        | true => exact absurd (eventKeyLt_trans h hca) (by simp [hdc])
      · intro x hx
        rcases List.mem_cons.mp hx with rfl | hx
        · exact hdc
        · exact hall x hx
    | false =>
      obtain ⟨d, hfold, hmem, hdc, hall⟩ := ih c
      refine ⟨d, by simpa [pickLatest, hca] using hfold, ?_, hdc, ?_⟩
      · rcases hmem with h | h
        · exact Or.inl h
        · exact Or.inr (List.mem_cons_of_mem _ h)
      · intro x hx
        rcases List.mem_cons.mp hx with rfl | hx
        · cases h : eventKeyLt d x with
          | false => rfl
          | true => exact absurd (eventKeyLt_of_lt_of_not_lt h hca) (by simp [hdc])
        · exact hall x hx

/-- The function `latestEvent` returns the unique `(change_date, id)`-maximal element. -/
theorem latestEvent_eq_max {l : List TireEvent} {e : TireEvent}
    (he : e ∈ l) (hmax : ∀ x ∈ l, x = e ∨ eventKeyLt x e = true) :
    latestEvent l = some e := by
  cases l with
  | nil => cases he
  | cons a l =>
    obtain ⟨d, hfold, hmem, hdc, hall⟩ := foldl_pickLatest l a
    have hfold2 : latestEvent (a :: l) = some d := by
      simpa [latestEvent, List.foldl_cons, pickLatest] using hfold
    have hdom : ∀ x ∈ a :: l, eventKeyLt d x = false := by
      intro x hx
      rcases List.mem_cons.mp hx with rfl | hx
      · exact hdc
      · exact hall x hx
    have hdmem : d ∈ a :: l := by
      rcases hmem with rfl | h
      · exact List.mem_cons_self _ _
      · exact List.mem_cons_of_mem _ h
    rcases hmax d hdmem with rfl | hlt
    · exact hfold2
    · exact absurd hlt (by simp [hdom e he])

/-! ### Small list facts shared by the claim proofs -/

theorem map_no_match {α : Type} (l : List α) (f : α → α) (h : ∀ a ∈ l, f a = a) :
    l.map f = l := by
  induction l with
  | nil => rfl
  | cons a l ih =>
    simp only [List.map_cons, h a (List.mem_cons_self a l)]
    rw [ih (fun b hb => h b (List.mem_cons_of_mem a hb))]

theorem filter_all_true {α : Type} (l : List α) (p : α → Bool)
    (h : ∀ a ∈ l, p a = true) : l.filter p = l := by
  induction l with
  | nil => rfl
  | cons a l ih =>
    simp only [List.filter_cons, h a (List.mem_cons_self a l), if_true]
    rw [ih (fun b hb => h b (List.mem_cons_of_mem a hb))]

theorem find?_all_false {α : Type} (l : List α) (p : α → Bool)
    (h : ∀ a ∈ l, p a = false) : l.find? p = none := by
  induction l with
  | nil => rfl
  | cons a l ih =>
    rw [List.find?_cons, h a (List.mem_cons_self a l)]
    exact ih (fun b hb => h b (List.mem_cons_of_mem a hb))

theorem any_all_false {α : Type} (l : List α) (p : α → Bool)
    (h : ∀ a ∈ l, p a = false) : l.any p = false := by
  induction l with
  | nil => rfl
  | cons a l ih =>
    rw [List.any_cons, h a (List.mem_cons_self a l)]
    exact ih (fun b hb => h b (List.mem_cons_of_mem a hb))

theorem mem_insertLE {α : Type} (le : α → α → Bool) (a b : α) :
    ∀ l : List α, b ∈ insertLE le a l ↔ b = a ∨ b ∈ l
  | [] => by simp [insertLE]
  | c :: l => by
    simp only [insertLE]
    by_cases h : le a c = true
    · simp [h, List.mem_cons]
    · rw [if_neg h]
      simp only [List.mem_cons, mem_insertLE le a b l]
      tauto

theorem mem_sortByLE {α : Type} (le : α → α → Bool) (b : α) :
    ∀ l : List α, b ∈ sortByLE le l ↔ b ∈ l
  | [] => Iff.rfl
  | a :: l => by
    simp only [sortByLE, mem_insertLE, List.mem_cons, mem_sortByLE le b l]

theorem filter_not_filter {α : Type} (l : List α) (p : α → Bool) :
    (l.filter (fun a => !p a)).filter p = [] := by
  induction l with
  | nil => rfl
  | cons a l ih => cases h : p a <;> simp [List.filter_cons, h, ih]

theorem filter_eq_nil_of_all_false {α : Type} (l : List α) (p : α → Bool)
    (h : ∀ a ∈ l, p a = false) : l.filter p = [] := by
  induction l with
  | nil => rfl
  | cons a l ih =>
    rw [List.filter_cons, h a (List.mem_cons_self a l)]
    simp only [Bool.false_eq_true, if_false]
    exact ih (fun b hb => h b (List.mem_cons_of_mem a hb))

theorem map_fst_pairs {α β : Type} (l : List α) (f : α → β) :
    (l.map (fun p => (p, f p))).map Prod.fst = l := by
  induction l with
  | nil => rfl
  | cons a l ih => simp [ih]

/-! ### Claim theorems -/

/-- C9: for every vehicle_type string other than "tractor" or "trailer",
`list_tire_events`, `create_tire_event` and `current_tires` raise the
validation error `未知车辆类型` before touching the store (the state is
unchanged), rather than returning an empty result. -/
theorem unknown_vehicle_type_raises (st : DBState) (vt : String) (vid : Nat)
    (posOpt : Option String) (pos cd : String) (mil : Int) (b mo n now : String)
    (h1 : vt ≠ VEHICLE_TYPE_TRACTOR) (h2 : vt ≠ VEHICLE_TYPE_TRAILER) :
    list_tire_events st vt vid posOpt = .error "未知车辆类型"
    ∧ create_tire_event st vt vid pos cd mil b mo n now = (.error "未知车辆类型", st)
    ∧ current_tires st vt vid = .error "未知车辆类型" := by
  have hg : get_valid_positions vt = .error "未知车辆类型" := by
    simp [get_valid_positions, h1, h2]
  exact ⟨by simp [list_tire_events, hg], by simp [create_tire_event, hg],
    by simp [current_tires, hg]⟩

/-- C9 witness: instantiated at the class string "bus". -/
theorem unknown_vehicle_type_raises_witness :
    list_tire_events emptyDB "bus" 1 none = .error "未知车辆类型"
    ∧ create_tire_event emptyDB "bus" 1 "F1" "2025-01-01" 0 "" "" "" "t" =
        (.error "未知车辆类型", emptyDB)
    ∧ current_tires emptyDB "bus" 1 = .error "未知车辆类型" :=
  unknown_vehicle_type_raises emptyDB "bus" 1 none "F1" "2025-01-01" 0 "" "" "" "t"
    (by decide) (by decide)

/-- C4: creating a tire event with a position outside the set of the given
vehicle class fails with a validation error and leaves the state (hence the
tire_events table) exactly as it was. -/
theorem create_tire_event_invalid_position (st : DBState) (vt : String)
    (vid : Nat) (pos cd : String) (mil : Int) (b mo n now : String)
    (ps : List String) (hvt : get_valid_positions vt = .ok ps)
    (hpos : pos ∉ ps) :
    create_tire_event st vt vid pos cd mil b mo n now = (.error "轮胎位置不合法", st) := by
  simp [create_tire_event, hvt, hpos]

/-- C4 witness: a trailer position on a tractor is rejected, state unchanged. -/
theorem create_tire_event_invalid_position_witness :
    create_tire_event emptyDB "tractor" 1 "R1" "2025-01-01" 5 "" "" "" "t" =
      (.error "轮胎位置不合法", emptyDB) :=
  create_tire_event_invalid_position emptyDB "tractor" 1 "R1" "2025-01-01" 5 "" "" "" "t"
    TRACTOR_TIRE_POSITIONS rfl (by decide)

/-- C7: `update_tire_event` validates the new position against the position
set of the vehicle class recorded in the stored event, so an update whose
position lies outside that stored class's set fails validation with the state
unchanged; no update can move an event into the other class's position space. -/
theorem update_position_checked_against_stored_class (st : DBState) (eid : Nat)
    (pos cd : String) (mil : Int) (b mo n : String) (e : TireEvent)
    (ps : List String)
    (hfind : st.tire_events.find? (fun x => decide (x.id = eid)) = some e)
    (hps : get_valid_positions e.vehicle_type = .ok ps)
    (hpos : pos ∉ ps) :
    update_tire_event st eid pos cd mil b mo n = (.error "轮胎位置不合法", st) := by
  simp [update_tire_event, hfind, hps, hpos]

/-- C7 witness: the stored tractor event with id 1 cannot be updated to the
trailer-only position R1. -/
theorem update_position_checked_witness :
    update_tire_event stFleet 1 "R1" "2025-06-01" 0 "" "" "" =
      (.error "轮胎位置不合法", stFleet) :=
  update_position_checked_against_stored_class stFleet 1 "R1" "2025-06-01" 0 "" "" ""
    evK1 TRACTOR_TIRE_POSITIONS (by decide) (by decide) (by decide)

/-- C8: a negative mileage is rejected with a validation error by tractor
creation, tire-event creation and maintenance-record creation alike, and in
each case the state is unchanged (nothing is written). -/
theorem negative_mileage_rejected (st : DBState) (plate : String) (mil : Int)
    (note now vt : String) (vid : Nat) (pos cd b mo rt sd mn : String)
    (hneg : mil < 0) :
    (isErr (create_tractor st plate mil note now).1 = true
      ∧ (create_tractor st plate mil note now).2 = st)
    ∧ (isErr (create_tire_event st vt vid pos cd mil b mo note now).1 = true
      ∧ (create_tire_event st vt vid pos cd mil b mo note now).2 = st)
    ∧ (isErr (create_maintenance_record st vt vid rt sd mil mn now).1 = true
      ∧ (create_maintenance_record st vt vid rt sd mil mn now).2 = st) := by
  refine ⟨?_, ?_, ?_⟩
  · by_cases hp : pyStrip plate = ""
    · simp [create_tractor, hp, isErr]
    · simp [create_tractor, hp, hneg, isErr]
  · cases hg : get_valid_positions vt with
    | error m => simp [create_tire_event, hg, isErr]
    | ok ps =>
      by_cases hpos : pos ∈ ps
      · simp [create_tire_event, hg, hpos, hneg, isErr]
      · simp [create_tire_event, hg, hpos, isErr]
  · by_cases hr : pyStrip rt = ""
    · simp [create_maintenance_record, hr, isErr]
    · simp [create_maintenance_record, hr, hneg, isErr]

/-- C8 witness: mileage -1 is rejected by all three creations on the empty
store. -/
theorem negative_mileage_rejected_witness :
    (isErr (create_tractor emptyDB "P-1" (-1) "" "t").1 = true
      ∧ (create_tractor emptyDB "P-1" (-1) "" "t").2 = emptyDB)
    ∧ (isErr (create_tire_event emptyDB "tractor" 1 "F1" "2025-01-01" (-1) "" "" "" "t").1 = true
      ∧ (create_tire_event emptyDB "tractor" 1 "F1" "2025-01-01" (-1) "" "" "" "t").2 = emptyDB)
    ∧ (isErr (create_maintenance_record emptyDB "tractor" 1 "保养" "2025-01-01" (-1) "" "t").1 = true
      ∧ (create_maintenance_record emptyDB "tractor" 1 "保养" "2025-01-01" (-1) "" "t").2 = emptyDB) :=
  negative_mileage_rejected emptyDB "P-1" (-1) "" "t" "tractor" 1 "F1" "2025-01-01"
    "" "" "保养" "2025-01-01" "" (by decide)

/-- C3 counterexample: `update_tire_event` addressed to the id 1, which does
not exist in the empty store, raises the validation error `记录不存在` instead
of returning as a no-op. -/
theorem update_tire_event_missing_id_raises :
    update_tire_event emptyDB 1 "F1" "2025-01-01" 0 "" "" "" =
      (.error "记录不存在", emptyDB) := by decide

/-- C3 amended: with valid field values, `update_tractor`, `update_trailer`
and `update_maintenance_record` addressed to a missing id succeed as no-ops
leaving every table unchanged, and every delete operation addressed to a
missing id (with, for vehicle deletes, no child rows referencing it) leaves
the state unchanged without error; `update_tire_event` alone raises the
validation error `记录不存在` on a missing id, still leaving the state
unchanged. -/
theorem vanished_row_operations (st : DBState) (tid tid2 eid rid mid : Nat)
    (plate plate2 note note2 rt sd mn posU cdU : String) (mil mmil : Int)
    (h1 : ∀ t ∈ st.tractors, t.id ≠ tid)
    (h2 : pyStrip plate ≠ "") (h3 : 0 ≤ mil)
    (h4 : ∀ t ∈ st.trailers, t.id ≠ tid2)
    (h5 : pyStrip plate2 ≠ "")
    (h6 : ∀ r ∈ st.maintenance_records, r.id ≠ rid)
    (h7 : pyStrip rt ≠ "") (h8 : 0 ≤ mmil) (h9 : isValidISODate sd = true)
    (h10 : ∀ e ∈ st.tire_events, e.id ≠ eid)
    (h11 : ∀ e ∈ st.tire_events, ¬(e.vehicle_type = VEHICLE_TYPE_TRACTOR ∧ e.vehicle_id = tid))
    (h12 : ∀ r ∈ st.maintenance_records, ¬(r.vehicle_type = VEHICLE_TYPE_TRACTOR ∧ r.vehicle_id = tid))
    (h13 : ∀ e ∈ st.tire_events, ¬(e.vehicle_type = VEHICLE_TYPE_TRAILER ∧ e.vehicle_id = tid2))
    (h14 : ∀ r ∈ st.maintenance_records, ¬(r.vehicle_type = VEHICLE_TYPE_TRAILER ∧ r.vehicle_id = tid2))
    (h15 : ∀ r ∈ st.maintenance_records, r.id ≠ mid) :
    update_tractor st tid plate mil note = (.ok (), st)
    ∧ update_trailer st tid2 plate2 note2 = (.ok (), st)
    ∧ update_maintenance_record st rid rt sd mmil mn = (.ok (), st)
    ∧ delete_tractor st tid = st
    ∧ delete_trailer st tid2 = st
    ∧ delete_tire_event st eid = st
    ∧ delete_maintenance_record st mid = st
    ∧ update_tire_event st eid posU cdU mmil "" "" "" = (.error "记录不存在", st) := by
  have hm3 : ¬ mil < 0 := not_lt.mpr h3
  have hm8 : ¬ mmil < 0 := not_lt.mpr h8
  refine ⟨?_, ?_, ?_, ?_, ?_, ?_, ?_, ?_⟩
  · have hany : st.tractors.any (fun t => decide (t.id = tid)) = false :=
      any_all_false _ _ (fun a ha => by simp [h1 a ha])
    rw [update_tractor, if_neg h2, if_neg hm3,
      if_neg (by simp [hany]),
      map_no_match st.tractors _ (fun a ha => by simp [h1 a ha])]
  · have hany : st.trailers.any (fun t => decide (t.id = tid2)) = false :=
      any_all_false _ _ (fun a ha => by simp [h4 a ha])
    rw [update_trailer, if_neg h5,
      if_neg (by simp [hany]),
      map_no_match st.trailers _ (fun a ha => by simp [h4 a ha])]
  · rw [update_maintenance_record]
    rw [if_neg h7, if_neg hm8]
    rw [show to_iso sd = .ok sd from by simp [to_iso, h9]]
    dsimp only
    rw [map_no_match st.maintenance_records _ (fun a ha => by simp [h6 a ha])]
  · rw [delete_tractor,
      filter_all_true st.tire_events _ (fun a ha => by simp [h11 a ha]),
      filter_all_true st.maintenance_records _ (fun a ha => by simp [h12 a ha]),
      filter_all_true st.tractors _ (fun a ha => by simp [h1 a ha])]
  · rw [delete_trailer,
      filter_all_true st.tire_events _ (fun a ha => by simp [h13 a ha]),
      filter_all_true st.maintenance_records _ (fun a ha => by simp [h14 a ha]),
      filter_all_true st.trailers _ (fun a ha => by simp [h4 a ha])]
  · rw [delete_tire_event,
      filter_all_true st.tire_events _ (fun a ha => by simp [h10 a ha])]
  · rw [delete_maintenance_record,
      filter_all_true st.maintenance_records _ (fun a ha => by simp [h15 a ha])]
  · rw [update_tire_event,
      find?_all_false st.tire_events _ (fun a ha => by simp [h10 a ha])]

/-- C3 witness: all the no-op operations evaluated on the populated store at
ids that exist in no table. -/
theorem vanished_row_operations_witness :
    update_tractor stFleet 9 "P-9" 3 "" = (.ok (), stFleet)
    ∧ update_trailer stFleet 9 "P-9" "" = (.ok (), stFleet)
    ∧ update_maintenance_record stFleet 9 "保养" "2025-06-01" 3 "" = (.ok (), stFleet)
    ∧ delete_tractor stFleet 9 = stFleet
    ∧ delete_trailer stFleet 9 = stFleet
    ∧ delete_tire_event stFleet 9 = stFleet
    ∧ delete_maintenance_record stFleet 9 = stFleet
    ∧ update_tire_event stFleet 9 "F1" "2025-06-01" 3 "" "" "" =
        (.error "记录不存在", stFleet) :=
  vanished_row_operations stFleet 9 9 9 9 9 "P-9" "P-9" "" "" "保养" "2025-06-01"
    "" "F1" "2025-06-01" 3 3 (by decide) (by decide) (by decide) (by decide)
    (by decide) (by decide) (by decide) (by decide) (by decide) (by decide)
    (by decide) (by decide) (by decide) (by decide) (by decide)

/-- C5: deleting a tractor (resp. trailer) removes, in one unit, every tire
event and maintenance record whose (vehicle_class, vehicle_id) references it
and the vehicle row itself: afterwards zero child rows for that vehicle
remain in either child table and the vehicle is absent from the vehicle
list. -/
theorem delete_vehicle_cascades (st : DBState) (tid rid : Nat) :
    ((delete_tractor st tid).tire_events.filter (fun e =>
        decide (e.vehicle_type = VEHICLE_TYPE_TRACTOR ∧ e.vehicle_id = tid)) = []
    ∧ (delete_tractor st tid).maintenance_records.filter (fun r =>
        decide (r.vehicle_type = VEHICLE_TYPE_TRACTOR ∧ r.vehicle_id = tid)) = []
    ∧ (delete_tractor st tid).tractors.filter (fun t => decide (t.id = tid)) = []
    ∧ (list_tractors (delete_tractor st tid)).filter (fun t => decide (t.id = tid)) = [])
    ∧ ((delete_trailer st rid).tire_events.filter (fun e =>
        decide (e.vehicle_type = VEHICLE_TYPE_TRAILER ∧ e.vehicle_id = rid)) = []
    ∧ (delete_trailer st rid).maintenance_records.filter (fun r =>
        decide (r.vehicle_type = VEHICLE_TYPE_TRAILER ∧ r.vehicle_id = rid)) = []
    ∧ (delete_trailer st rid).trailers.filter (fun t => decide (t.id = rid)) = []
    ∧ (list_trailers (delete_trailer st rid)).filter (fun t => decide (t.id = rid)) = []) := by
  refine ⟨⟨?_, ?_, ?_, ?_⟩, ?_, ?_, ?_, ?_⟩
  · exact filter_not_filter st.tire_events _
  · exact filter_not_filter st.maintenance_records _
  · exact filter_not_filter st.tractors _
  · refine filter_eq_nil_of_all_false _ _ (fun a ha => ?_)
    have hmem : a ∈ (delete_tractor st tid).tractors :=
      (mem_sortByLE _ a _).mp ha
    have := List.mem_filter.mp hmem
    simpa using this.2
  · exact filter_not_filter st.tire_events _
  · exact filter_not_filter st.maintenance_records _
  · exact filter_not_filter st.trailers _
  · refine filter_eq_nil_of_all_false _ _ (fun a ha => ?_)
    have hmem : a ∈ (delete_trailer st rid).trailers :=
      (mem_sortByLE _ a _).mp ha
    have := List.mem_filter.mp hmem
    simpa using this.2

/-- C5 witness: deleting tractor 1 and trailer 1 of the populated fleet store
leaves no child rows and removes the vehicles from the lists. -/
theorem delete_vehicle_cascades_witness :
    ((delete_tractor stFleet 1).tire_events.filter (fun e =>
        decide (e.vehicle_type = VEHICLE_TYPE_TRACTOR ∧ e.vehicle_id = 1)) = []
    ∧ (delete_tractor stFleet 1).maintenance_records.filter (fun r =>
        decide (r.vehicle_type = VEHICLE_TYPE_TRACTOR ∧ r.vehicle_id = 1)) = []
    ∧ (delete_tractor stFleet 1).tractors.filter (fun t => decide (t.id = 1)) = []
    ∧ (list_tractors (delete_tractor stFleet 1)).filter (fun t => decide (t.id = 1)) = [])
    ∧ ((delete_trailer stFleet 1).tire_events.filter (fun e =>
        decide (e.vehicle_type = VEHICLE_TYPE_TRAILER ∧ e.vehicle_id = 1)) = []
    ∧ (delete_trailer stFleet 1).maintenance_records.filter (fun r =>
        decide (r.vehicle_type = VEHICLE_TYPE_TRAILER ∧ r.vehicle_id = 1)) = []
    ∧ (delete_trailer stFleet 1).trailers.filter (fun t => decide (t.id = 1)) = []
    ∧ (list_trailers (delete_trailer stFleet 1)).filter (fun t => decide (t.id = 1)) = []) :=
  delete_vehicle_cascades stFleet 1 1

/-- Inversion of a successful `create_tractor`. -/
theorem create_tractor_ok {st : DBState} {plate : String} {mileage : Int}
    {note now : String} {k : Nat} {st2 : DBState}
    (h : create_tractor st plate mileage note now = (.ok k, st2)) :
    pyStrip plate ≠ "" ∧ ¬ mileage < 0
    ∧ st.tractors.any (fun t => decide (t.plate = pyStrip plate)) = false
    ∧ k = st.next_tractor_id
    ∧ st2 = { st with
        tractors := st.tractors ++
          [{ id := st.next_tractor_id, plate := pyStrip plate, mileage := mileage
             note := note, created_at := now }]
        next_tractor_id := st.next_tractor_id + 1 } := by
  simp only [create_tractor] at h
  by_cases h1 : pyStrip plate = ""
  · rw [if_pos h1] at h; simp at h
  · rw [if_neg h1] at h
    by_cases h2 : mileage < 0
    · rw [if_pos h2] at h; simp at h
    · rw [if_neg h2] at h
      cases h3 : st.tractors.any (fun t => decide (t.plate = pyStrip plate)) with
      | true => rw [if_pos (by simp [h3])] at h; simp at h
      | false =>
        rw [if_neg (by simp [h3])] at h
        have hk := congrArg Prod.fst h
        have hs := congrArg Prod.snd h
        simp only [Except.ok.injEq] at hk
        simp only at hs
        exact ⟨h1, h2, rfl, hk.symm, hs.symm⟩

/-- Inversion of a successful `create_trailer`. -/
theorem create_trailer_ok {st : DBState} {plate : String} {note now : String}
    {k : Nat} {st2 : DBState}
    (h : create_trailer st plate note now = (.ok k, st2)) :
    pyStrip plate ≠ ""
    ∧ st.trailers.any (fun t => decide (t.plate = pyStrip plate)) = false
    ∧ k = st.next_trailer_id
    ∧ st2 = { st with
        trailers := st.trailers ++
          [{ id := st.next_trailer_id, plate := pyStrip plate, note := note
             created_at := now }]
        next_trailer_id := st.next_trailer_id + 1 } := by
  simp only [create_trailer] at h
  by_cases h1 : pyStrip plate = ""
  · rw [if_pos h1] at h; simp at h
  · rw [if_neg h1] at h
    cases h3 : st.trailers.any (fun t => decide (t.plate = pyStrip plate)) with
    | true => rw [if_pos (by simp [h3])] at h; simp at h
    | false =>
      rw [if_neg (by simp [h3])] at h
      have hk := congrArg Prod.fst h
      have hs := congrArg Prod.snd h
      simp only [Except.ok.injEq] at hk
      simp only at hs
      exact ⟨h1, rfl, hk.symm, hs.symm⟩

/-- Inversion of a successful `update_tractor`. -/
theorem update_tractor_ok {st : DBState} {tid : Nat} {plate : String}
    {mileage : Int} {note : String} {st2 : DBState}
    (h : update_tractor st tid plate mileage note = (.ok (), st2)) :
    pyStrip plate ≠ "" ∧ ¬ mileage < 0
    ∧ st2 = { st with tractors := st.tractors.map (fun t =>
        if t.id = tid then
          { t with plate := pyStrip plate, mileage := mileage, note := note }
        else t) } := by
  simp only [update_tractor] at h
  by_cases h1 : pyStrip plate = ""
  · rw [if_pos h1] at h; simp at h
  · rw [if_neg h1] at h
    by_cases h2 : mileage < 0
    · rw [if_pos h2] at h; simp at h
    · rw [if_neg h2] at h
      by_cases h3 : (st.tractors.any (fun t => decide (t.id = tid)) = true ∧
          st.tractors.any (fun t => decide (t.plate = pyStrip plate ∧ t.id ≠ tid)) = true)
      · rw [if_pos h3] at h; simp at h
      · rw [if_neg h3] at h
        have hs := congrArg Prod.snd h
        simp only at hs
        exact ⟨h1, h2, hs.symm⟩

/-- Inversion of a successful `update_trailer`. -/
theorem update_trailer_ok {st : DBState} {tid : Nat} {plate note : String}
    {st2 : DBState}
    (h : update_trailer st tid plate note = (.ok (), st2)) :
    pyStrip plate ≠ ""
    ∧ st2 = { st with trailers := st.trailers.map (fun t =>
        if t.id = tid then { t with plate := pyStrip plate, note := note }
        else t) } := by
  simp only [update_trailer] at h
  by_cases h1 : pyStrip plate = ""
  · rw [if_pos h1] at h; simp at h
  · rw [if_neg h1] at h
    by_cases h3 : (st.trailers.any (fun t => decide (t.id = tid)) = true ∧
        st.trailers.any (fun t => decide (t.plate = pyStrip plate ∧ t.id ≠ tid)) = true)
    · rw [if_pos h3] at h; simp at h
    · rw [if_neg h3] at h
      have hs := congrArg Prod.snd h
      simp only at hs
      exact ⟨h1, hs.symm⟩

/-- C6: for either vehicle class, after successfully creating a vehicle with
a fresh non-empty plate, exactly one row of that class's table carries the
(trimmed) plate; a second creation of the same class with the identical
plate fails and leaves the state unchanged, so the first vehicle remains the
sole row with that plate. Uniqueness is scoped per class's table: the
trailer table still accepts the plate just taken by a tractor. -/
theorem duplicate_plate_second_create_fails (st : DBState) (plate : String)
    (mileage m2 : Int) (note n2 now now2 : String) (k k2 : Nat)
    (st2 st3 : DBState)
    (hfreshT : ∀ t ∈ st.tractors, t.plate ≠ pyStrip plate)
    (hfreshR : ∀ t ∈ st.trailers, t.plate ≠ pyStrip plate)
    (hcT : create_tractor st plate mileage note now = (.ok k, st2))
    (hcR : create_trailer st plate n2 now = (.ok k2, st3)) :
    ((st2.tractors.filter (fun t => decide (t.plate = pyStrip plate))).length = 1
      ∧ isErr (create_tractor st2 plate m2 n2 now2).1 = true
      ∧ (create_tractor st2 plate m2 n2 now2).2 = st2)
    ∧ ((st3.trailers.filter (fun t => decide (t.plate = pyStrip plate))).length = 1
      ∧ isErr (create_trailer st3 plate n2 now2).1 = true
      ∧ (create_trailer st3 plate n2 now2).2 = st3)
    ∧ isErr (create_trailer st2 plate n2 now2).1 = false := by
  obtain ⟨h1, h2, h3, hk, hs⟩ := create_tractor_ok hcT
  obtain ⟨h1R, h3R, hkR, hsR⟩ := create_trailer_ok hcR
  subst hs hsR
  refine ⟨⟨?_, ?_, ?_⟩, ⟨?_, ?_, ?_⟩, ?_⟩
  · show ((st.tractors ++ _).filter _).length = 1
    rw [List.filter_append,
      filter_eq_nil_of_all_false st.tractors _ (fun a ha => by simp [hfreshT a ha])]
    simp
  · by_cases hm2 : m2 < 0
    · simp [create_tractor, h1, hm2, isErr]
    · simp [create_tractor, h1, hm2, isErr]
  · by_cases hm2 : m2 < 0
    · simp [create_tractor, h1, hm2, isErr]
    · simp [create_tractor, h1, hm2, isErr]
  · show ((st.trailers ++ _).filter _).length = 1
    rw [List.filter_append,
      filter_eq_nil_of_all_false st.trailers _ (fun a ha => by simp [hfreshR a ha])]
    simp
  · simp [create_trailer, h1R, isErr]
  · simp [create_trailer, h1R, isErr]
  · have hany2 : st.trailers.any (fun t => decide (t.plate = pyStrip plate)) = false :=
      any_all_false _ _ (fun a ha => by simp [hfreshR a ha])
    simp [create_trailer, h1, hany2, isErr]

/-- C6 witness: plate " AB-12 " created once as a tractor and once as a
trailer on the empty store; the duplicate creation of each class fails, the
unique row per class remains, and the cross-class creation is accepted. -/
theorem duplicate_plate_second_create_fails_witness :
    create_tractor emptyDB " AB-12 " 7 "" "t" = (.ok 1, stDup)
    ∧ create_trailer emptyDB " AB-12 " "" "t" = (.ok 1, stDupR)
    ∧ (stDup.tractors.filter (fun t => decide (t.plate = pyStrip " AB-12 "))).length = 1
    ∧ isErr (create_tractor stDup " AB-12 " 5 "" "t2").1 = true
    ∧ (create_tractor stDup " AB-12 " 5 "" "t2").2 = stDup
    ∧ (stDupR.trailers.filter (fun t => decide (t.plate = pyStrip " AB-12 "))).length = 1
    ∧ isErr (create_trailer stDupR " AB-12 " "" "t2").1 = true
    ∧ (create_trailer stDupR " AB-12 " "" "t2").2 = stDupR
    ∧ isErr (create_trailer stDup " AB-12 " "" "t2").1 = false :=
  have h := duplicate_plate_second_create_fails emptyDB " AB-12 " 7 5 "" "" "t" "t2"
    1 1 stDup stDupR (by decide) (by decide) (by decide) (by decide)
  ⟨by decide, by decide, h.1.1, h.1.2.1, h.1.2.2, h.2.1.1, h.2.1.2.1, h.2.1.2.2,
    h.2.2⟩

/-- C10: after every single successful create or update of a tractor or
trailer, every row of that class carrying the affected id stores exactly the
caller's plate with surrounding whitespace removed, which is non-empty;
consequently the rows observable for that id through the get and list
operations carry the trimmed, non-empty plate. Each of the four operations
is covered by its own implication, so any one success suffices; the create
cases assume the AUTOINCREMENT invariant that existing row ids lie below the
counter. -/
theorem plate_stored_trimmed (st : DBState) (plate : String) (mileage : Int)
    (note now : String) (tid tid2 k k2 : Nat) (st1 st2 st3 st4 : DBState)
    (hids : ∀ t ∈ st.tractors, t.id < st.next_tractor_id)
    (hids2 : ∀ t ∈ st.trailers, t.id < st.next_trailer_id) :
    (create_tractor st plate mileage note now = (.ok k, st1) →
      pyStrip plate ≠ ""
      ∧ (∀ t ∈ st1.tractors, t.id = k → t.plate = pyStrip plate ∧ t.plate ≠ "")
      ∧ (∃ t ∈ st1.tractors, t.id = k)
      ∧ (∀ t, get_tractor st1 k = some t → t.plate = pyStrip plate ∧ t.plate ≠ "")
      ∧ (∀ t ∈ list_tractors st1, t.id = k → t.plate = pyStrip plate ∧ t.plate ≠ ""))
    ∧ (update_tractor st tid plate mileage note = (.ok (), st2) →
      pyStrip plate ≠ ""
      ∧ (∀ t ∈ st2.tractors, t.id = tid → t.plate = pyStrip plate ∧ t.plate ≠ "")
      ∧ (∀ t, get_tractor st2 tid = some t → t.plate = pyStrip plate ∧ t.plate ≠ "")
      ∧ (∀ t ∈ list_tractors st2, t.id = tid → t.plate = pyStrip plate ∧ t.plate ≠ ""))
    ∧ (create_trailer st plate note now = (.ok k2, st3) →
      pyStrip plate ≠ ""
      ∧ (∀ t ∈ st3.trailers, t.id = k2 → t.plate = pyStrip plate ∧ t.plate ≠ "")
      ∧ (∃ t ∈ st3.trailers, t.id = k2)
      ∧ (∀ t, get_trailer st3 k2 = some t → t.plate = pyStrip plate ∧ t.plate ≠ "")
      ∧ (∀ t ∈ list_trailers st3, t.id = k2 → t.plate = pyStrip plate ∧ t.plate ≠ ""))
    ∧ (update_trailer st tid2 plate note = (.ok (), st4) →
      pyStrip plate ≠ ""
      ∧ (∀ t ∈ st4.trailers, t.id = tid2 → t.plate = pyStrip plate ∧ t.plate ≠ "")
      ∧ (∀ t, get_trailer st4 tid2 = some t → t.plate = pyStrip plate ∧ t.plate ≠ "")
      ∧ (∀ t ∈ list_trailers st4, t.id = tid2 → t.plate = pyStrip plate ∧ t.plate ≠ "")) := by
  refine ⟨?_, ?_, ?_, ?_⟩
  · intro h1
    obtain ⟨hp, hm, hu1, hk, hs1⟩ := create_tractor_ok h1
    subst hs1 hk
    have hrow : ∀ t ∈ st.tractors ++
        [{ id := st.next_tractor_id, plate := pyStrip plate, mileage := mileage
           note := note, created_at := now }],
        t.id = st.next_tractor_id → t.plate = pyStrip plate ∧ t.plate ≠ "" := by
      intro t ht htid
      rcases List.mem_append.mp ht with hold | hnew
      · exact absurd htid (by have := hids t hold; omega)
      · simp only [List.mem_singleton] at hnew
        subst hnew
        exact ⟨rfl, hp⟩
    refine ⟨hp, hrow, ?_, ?_, ?_⟩
    · exact ⟨{ id := st.next_tractor_id, plate := pyStrip plate, mileage := mileage
               note := note, created_at := now },
        List.mem_append_right _ (List.mem_singleton_self _), rfl⟩
    · intro t hget
      exact hrow t (List.mem_of_find?_eq_some hget)
        (by simpa using List.find?_some hget)
    · intro t ht htid
      exact hrow t ((mem_sortByLE _ t _).mp ht) htid
  · intro h2
    obtain ⟨hp2, hm2, hs2⟩ := update_tractor_ok h2
    subst hs2
    have hrow : ∀ t ∈ st.tractors.map (fun t =>
        if t.id = tid then
          { t with plate := pyStrip plate, mileage := mileage, note := note }
        else t),
        t.id = tid → t.plate = pyStrip plate ∧ t.plate ≠ "" := by
      intro t ht htid
      rcases List.mem_map.mp ht with ⟨a, ha, rfl⟩
      by_cases hcase : a.id = tid
      · rw [if_pos hcase]
        exact ⟨rfl, hp2⟩
      · rw [if_neg hcase] at htid ⊢
        exact absurd htid hcase
    refine ⟨hp2, hrow, ?_, ?_⟩
    · intro t hget
      exact hrow t (List.mem_of_find?_eq_some hget)
        (by simpa using List.find?_some hget)
    · intro t ht htid
      exact hrow t ((mem_sortByLE _ t _).mp ht) htid
  · intro h3
    obtain ⟨hp3, hu3, hk2, hs3⟩ := create_trailer_ok h3
    subst hs3 hk2
    have hrow : ∀ t ∈ st.trailers ++
        [{ id := st.next_trailer_id, plate := pyStrip plate, note := note
           created_at := now }],
        t.id = st.next_trailer_id → t.plate = pyStrip plate ∧ t.plate ≠ "" := by
      intro t ht htid
      rcases List.mem_append.mp ht with hold | hnew
      · exact absurd htid (by have := hids2 t hold; omega)
      · simp only [List.mem_singleton] at hnew
        subst hnew
        exact ⟨rfl, hp3⟩
    refine ⟨hp3, hrow, ?_, ?_, ?_⟩
    · exact ⟨{ id := st.next_trailer_id, plate := pyStrip plate, note := note
               created_at := now },
        List.mem_append_right _ (List.mem_singleton_self _), rfl⟩
    · intro t hget
      exact hrow t (List.mem_of_find?_eq_some hget)
        (by simpa using List.find?_some hget)
    · intro t ht htid
      exact hrow t ((mem_sortByLE _ t _).mp ht) htid
  · intro h4
    obtain ⟨hp4, hs4⟩ := update_trailer_ok h4
    subst hs4
    have hrow : ∀ t ∈ st.trailers.map (fun t =>
        if t.id = tid2 then { t with plate := pyStrip plate, note := note }
        else t),
        t.id = tid2 → t.plate = pyStrip plate ∧ t.plate ≠ "" := by
      intro t ht htid
      rcases List.mem_map.mp ht with ⟨a, ha, rfl⟩
      by_cases hcase : a.id = tid2
      · rw [if_pos hcase]
        exact ⟨rfl, hp4⟩
      · rw [if_neg hcase] at htid ⊢
        exact absurd htid hcase
    refine ⟨hp4, hrow, ?_, ?_⟩
    · intro t hget
      exact hrow t (List.mem_of_find?_eq_some hget)
        (by simpa using List.find?_some hget)
    · intro t ht htid
      exact hrow t ((mem_sortByLE _ t _).mp ht) htid

/-- C10 witness: on the two-vehicle store each of the four operations with
plate input " C-9 " succeeds on its own, and the trimmed plate is
non-empty; the rows observed through get carry exactly the trimmed plate. -/
theorem plate_stored_trimmed_witness :
    create_tractor stAB " C-9 " 3 "" "t" = (.ok 2, stABcreateT)
    ∧ update_tractor stAB 1 " C-9 " 3 "" = (.ok (), stABupdateT)
    ∧ create_trailer stAB " C-9 " "" "t" = (.ok 2, stABcreateR)
    ∧ update_trailer stAB 1 " C-9 " "" = (.ok (), stABupdateR)
    ∧ pyStrip " C-9 " ≠ ""
    ∧ ({ id := 2, plate := "C-9", mileage := 3, note := "", created_at := "t" :
          Tractor }.plate = pyStrip " C-9 "
        ∧ ({ id := 2, plate := "C-9", mileage := 3, note := "", created_at := "t" :
          Tractor }.plate ≠ ""))
    ∧ ({ id := 1, plate := "C-9", note := "", created_at := "t" :
          Trailer }.plate = pyStrip " C-9 "
        ∧ ({ id := 1, plate := "C-9", note := "", created_at := "t" :
          Trailer }.plate ≠ "")) :=
  have h := plate_stored_trimmed stAB " C-9 " 3 "" "t" 1 1 2 2 stABcreateT
    stABupdateT stABcreateR stABupdateR (by decide) (by decide)
  ⟨by decide, by decide, by decide, by decide, (h.1 (by decide)).1,
    (h.1 (by decide)).2.2.2.1
      { id := 2, plate := "C-9", mileage := 3, note := "", created_at := "t" }
      (by decide),
    (h.2.2.2 (by decide)).2.2.1
      { id := 1, plate := "C-9", note := "", created_at := "t" }
      (by decide)⟩

/-- C1: for every vehicle and every class position with at least one tire
event, the resolver maps that position to the event that is maximal first by
`change_date` and then by internal id — regardless of the order in which the
events sit in the table, so two events inserted with identical dates in
either order resolve to the one with the larger id. -/
theorem current_tires_latest_wins (st : DBState) (vt : String) (vid : Nat)
    (pos : String) (e : TireEvent) (ps : List String)
    (m : List (String × Option TireEvent))
    (hps : get_valid_positions vt = .ok ps) (hpos : pos ∈ ps)
    (hm : current_tires st vt vid = .ok m)
    (he : e ∈ eventsFor st vt vid pos)
    (hmax : ∀ x ∈ eventsFor st vt vid pos, x = e ∨ eventKeyLt x e = true) :
    (pos, some e) ∈ m := by
  rw [current_tires, hps] at hm
  injection hm with hm
  subst hm
  have hl : latestEvent (eventsFor st vt vid pos) = some e := latestEvent_eq_max he hmax
  exact List.mem_map.mpr ⟨pos, hpos, by rw [hl]⟩

/-- C1 witness: two events at (tractor 1, F1) share the date 2025-05-01 and
sit in the table with the id-2 row before the id-1 row; the resolver returns
the id-2 event. -/
theorem current_tires_latest_wins_witness :
    current_tires stTie "tractor" 1 = .ok mTie ∧ ("F1", some evK2) ∈ mTie :=
  ⟨by decide,
    current_tires_latest_wins stTie "tractor" 1 "F1" evK2 TRACTOR_TIRE_POSITIONS mTie
      (by decide) (by decide) (by decide) (by decide) (by decide)⟩

/-- C2: whenever the resolver succeeds, its result has exactly one entry per
position of the vehicle class's fixed set — the 8 labels F1..F8 for a
tractor, the 12 labels R1..R12 for a trailer, in particular it never omits a
position — and a position with no recorded event is mapped to the explicit
value `none`. -/
theorem current_tires_covers_all_positions (st : DBState) (vt : String)
    (vid : Nat) (m : List (String × Option TireEvent))
    (hm : current_tires st vt vid = .ok m) :
    ((vt = VEHICLE_TYPE_TRACTOR ∧ m.map Prod.fst = TRACTOR_TIRE_POSITIONS ∧ m.length = 8)
      ∨ (vt = VEHICLE_TYPE_TRAILER ∧ m.map Prod.fst = TRAILER_TIRE_POSITIONS ∧ m.length = 12))
    ∧ (m.map Prod.fst).Nodup
    ∧ ∀ p o, (p, o) ∈ m → eventsFor st vt vid p = [] → o = none := by
  by_cases h1 : vt = VEHICLE_TYPE_TRACTOR
  · subst h1
    have hr : current_tires st VEHICLE_TYPE_TRACTOR vid =
        .ok (TRACTOR_TIRE_POSITIONS.map (fun p =>
          (p, latestEvent (eventsFor st VEHICLE_TYPE_TRACTOR vid p)))) := rfl
    rw [hr] at hm
    injection hm with hm
    subst hm
    refine ⟨Or.inl ⟨rfl, map_fst_pairs _ _, by simp [TRACTOR_TIRE_POSITIONS]⟩, ?_, ?_⟩
    · have hfst : (TRACTOR_TIRE_POSITIONS.map (fun p =>
          (p, latestEvent (eventsFor st VEHICLE_TYPE_TRACTOR vid p)))).map Prod.fst =
          TRACTOR_TIRE_POSITIONS := map_fst_pairs _ _
      rw [hfst]
      decide
    · intro p o hpo hemp
      rcases List.mem_map.mp hpo with ⟨q, hq, heq⟩
      have hq1 : q = p := congrArg Prod.fst heq
      have hq2 : latestEvent (eventsFor st VEHICLE_TYPE_TRACTOR vid q) = o :=
        congrArg Prod.snd heq
      subst hq1
      rw [← hq2, hemp]
      rfl
  · by_cases h2 : vt = VEHICLE_TYPE_TRAILER
    · subst h2
      have hr : current_tires st VEHICLE_TYPE_TRAILER vid =
          .ok (TRAILER_TIRE_POSITIONS.map (fun p =>
            (p, latestEvent (eventsFor st VEHICLE_TYPE_TRAILER vid p)))) := rfl
      rw [hr] at hm
      injection hm with hm
      subst hm
      refine ⟨Or.inr ⟨rfl, map_fst_pairs _ _, by simp [TRAILER_TIRE_POSITIONS]⟩, ?_, ?_⟩
      · have hfst : (TRAILER_TIRE_POSITIONS.map (fun p =>
            (p, latestEvent (eventsFor st VEHICLE_TYPE_TRAILER vid p)))).map Prod.fst =
            TRAILER_TIRE_POSITIONS := map_fst_pairs _ _
        rw [hfst]
        decide
      · intro p o hpo hemp
        rcases List.mem_map.mp hpo with ⟨q, hq, heq⟩
        have hq1 : q = p := congrArg Prod.fst heq
        have hq2 : latestEvent (eventsFor st VEHICLE_TYPE_TRAILER vid q) = o :=
          congrArg Prod.snd heq
        subst hq1
        rw [← hq2, hemp]
        rfl
    · rw [current_tires, show get_valid_positions vt = .error "未知车辆类型" from
        by simp [get_valid_positions, h1, h2]] at hm
      cases hm

/-- C2 witness: on the empty store the tractor resolver returns one entry per
position F1..F8, each mapped to `none`. -/
theorem current_tires_covers_all_positions_witness :
    current_tires emptyDB "tractor" 1 = .ok mEmpty
    ∧ ((("tractor" : String) = VEHICLE_TYPE_TRACTOR
        ∧ mEmpty.map Prod.fst = TRACTOR_TIRE_POSITIONS ∧ mEmpty.length = 8)
      ∨ (("tractor" : String) = VEHICLE_TYPE_TRAILER
        ∧ mEmpty.map Prod.fst = TRAILER_TIRE_POSITIONS ∧ mEmpty.length = 12))
    ∧ (mEmpty.map Prod.fst).Nodup :=
  have h := current_tires_covers_all_positions emptyDB "tractor" 1 mEmpty (by decide)
  ⟨by decide, h.1, h.2.1⟩

end TruckCare
